import Mathlib

/-!
Shallow embedding of the tag workflow and the paginator of the leaf bot.

The definitions below are translated from src/leaf/extensions/tags.py
(the reservation table, the permission check, and the create / view /
rename / delete / restore / claim command handlers) and from
src/leaf/utils/pagination.py (the paginated view and its page modal).
Database rows are modelled as a list of records, SQL reads as list
searches and SQL writes as list transformations; the bounded wait for a
follow-up message is modelled by an optional reply value (none meaning
the 300 second timeout elapsed); Python exceptions that escape a handler
are modelled by an explicit error result.
-/

/-- Runtime error relevant to the embedded code: tags.py line 37 evaluates
an interpolated logging string that names the unbound variable tags, which
raises a NameError at run time. -/
inductive PyError where
  | nameError
deriving DecidableEq, Repr

/-- Python str.lower as used on tag names, modelled character-wise over
the underlying character list (the names involved are ASCII). -/
def pyLower (s : String) : String := String.mk (s.data.map Char.toLower)

/-- The in-memory reservation table, field _reserved_tags_being_made of
TagsCog: a Python dict from guild id to a set of lowercased names,
modelled as an association list from guild id to a duplicate-free list
of names. -/
abbrev ReservationTable := List (Nat × List String)

/-- Dictionary lookup of the guild key in _reserved_tags_being_made. -/
def lookupGuild (tbl : ReservationTable) (guild_id : Nat) : Option (List String) :=
  (tbl.find? (fun p => p.1 == guild_id)).map (fun p => p.2)

/-- TagsCog.is_tag_being_made (tags.py lines 34-42). If the guild key is
absent, the KeyError raised by the dict subscript is caught and False is
returned. If the key is present, the next statement evaluates a logging
string that interpolates the unbound name tags, so a NameError is raised
and propagates to the caller; the membership test of the lowercased name
on the final line is never reached. -/
def is_tag_being_made (tbl : ReservationTable) (guild_id : Nat) (_name : String) :
    Except PyError Bool :=
  match lookupGuild tbl guild_id with
  | none => .ok false
  | some _ => .error .nameError

/-- TagsCog.add_in_progress_tag (tags.py lines 44-47): setdefault of an
empty set for the guild, then set-insertion of the lowercased name. -/
def add_in_progress_tag (tbl : ReservationTable) (guild_id : Nat) (name : String) :
    ReservationTable :=
  match lookupGuild tbl guild_id with
  | none => tbl ++ [(guild_id, [pyLower name])]
  | some s =>
      if s.contains (pyLower name) then tbl
      else tbl.map (fun p => if p.1 == guild_id then (p.1, p.2 ++ [pyLower name]) else p)

/-- TagsCog.remove_in_progress_tag (tags.py lines 49-58): if the guild key
is absent the KeyError is caught and nothing happens; otherwise the
lowercased name is discarded from the set and, if the set became empty,
the guild key itself is deleted. -/
def remove_in_progress_tag (tbl : ReservationTable) (guild_id : Nat) (name : String) :
    ReservationTable :=
  match lookupGuild tbl guild_id with
  | none => tbl
  | some s =>
      let s' := s.filter (fun x => x != pyLower name)
      if s'.isEmpty then tbl.filter (fun p => p.1 != guild_id)
      else tbl.map (fun p => if p.1 == guild_id then (p.1, s') else p)

/-- One row of the tags relation. The columns are those used by the
embedded handlers: name, guild_id, owner_id, content, created_at,
last_edited_at, uses and the soft-delete flag. Timestamps are modelled
as abstract instants (Nat). -/
structure Tag where
  name : String
  guild_id : Nat
  owner_id : Nat
  content : String
  created_at : Nat
  last_edited_at : Nat
  uses : Nat
  deleted : Bool
deriving DecidableEq, Repr

/-- The tags relation: an ordered list of rows. -/
abbrev TagDb := List Tag

/-- The query SELECT * FROM tags WHERE name = $1 AND guild_id = $2 AND
deleted = d, fetching one row (the first matching row of the relation). -/
def fetchrowTags (db : TagDb) (name : String) (guild_id : Nat) (d : Bool) : Option Tag :=
  db.find? (fun t => t.name == name && t.guild_id == guild_id && t.deleted == d)

/-- The data of a command invocation that the handlers read: the guild, the
invoking user, and the outcome of the two permission predicates used by
TagsCog.check_permissions. -/
structure Ctx where
  guild_id : Nat
  user_id : Nat
  manage_guild : Bool
  bot_owner : Bool
deriving DecidableEq, Repr

/-- TagsCog.check_permissions (tags.py lines 25-32): the tag_record
argument holds the owner id of the tag; the check passes when the invoker
is that owner, has the manage-guild permission, or is the bot owner. -/
def check_permissions (tag_record : Nat) (ctx : Ctx) : Bool :=
  tag_record == ctx.user_id || ctx.manage_guild || ctx.bot_owner

/-- The user-visible outcome of a handler invocation (which embed or
message the handler sends), plus an uncaught Python exception escaping
the handler. -/
inductive TagResponse where
  | alreadyExists
  | promptThenTimedOut
  | created
  | doesNotExist
  | nameTakenMsg
  | renamed
  | permissionDenied
  | tagDeleted
  | ownerStillPresent
  | claimed
  | restored
  | restoredRenamed
  | invalidTagName
  | viewed (content : String)
  | uncaught (e : PyError)
deriving DecidableEq, Repr

/-- The mutable state the tag handlers touch: the tags relation and the
in-memory reservation table. -/
structure CogState where
  db : TagDb
  reserved : ReservationTable
deriving DecidableEq, Repr

/-- TagsCog.create_tag (tags.py lines 246-322). The reply argument is the
outcome of the 300 second wait for a message from the invoker in the
channel: some content if such a message arrived, none on timeout. The
INSERT uses DEFAULT for created_at, last_edited_at and uses; the schema
is not part of the repository, so those defaults are modelled from the
spec: uses starts at 0 and last_edited_at initializes equal to
created_at, both timestamps being the current instant now.
Note the timeout branch of the source returns directly after sending the
notification, without touching the reservation table. -/
def create_tag (st : CogState) (ctx : Ctx) (name : String) (reply : Option String)
    (now : Nat) : TagResponse × CogState :=
  match fetchrowTags st.db name ctx.guild_id false with
  | some _ => (.alreadyExists, st)
  | none =>
      match is_tag_being_made st.reserved ctx.guild_id name with
      | .error e => (.uncaught e, st)
      | .ok true => (.alreadyExists, st)
      | .ok false =>
          let st1 : CogState :=
            { st with reserved := add_in_progress_tag st.reserved ctx.guild_id name }
          match reply with
          | none => (.promptThenTimedOut, st1)
          | some content =>
              let row : Tag :=
                { name := name, guild_id := ctx.guild_id, owner_id := ctx.user_id,
                  content := content, created_at := now, last_edited_at := now,
                  uses := 0, deleted := false }
              let st2 : CogState := { st1 with db := st1.db ++ [row] }
              (.created,
               { st2 with
                  reserved := remove_in_progress_tag st2.reserved ctx.guild_id name })

/-- TagsCog.view_tag (tags.py lines 194-244): read the non-deleted row,
send its content, then run UPDATE tags SET uses = read value plus one
WHERE name and guild_id match (the update carries no deleted filter, so
it touches every row of the guild with that name). -/
def view_tag (db : TagDb) (ctx : Ctx) (tag : String) : TagResponse × TagDb :=
  match fetchrowTags db tag ctx.guild_id false with
  | none => (.doesNotExist, db)
  | some r =>
      (.viewed r.content,
       db.map (fun t =>
         if t.name == tag && t.guild_id == ctx.guild_id then { t with uses := r.uses + 1 }
         else t))

/-- TagsCog.rename_tag (tags.py lines 324-396). After the existence and
permission checks, the handler fetches the row it calls
new_name_tag_record with the query SELECT ... WHERE name = $1 ... , but
it passes tag (the old name) as $1, not new_name; and it aborts only
when that record exists AND is_tag_being_made holds for the new name.
When the abort is not taken, it reserves the new name, runs UPDATE tags
SET name = $1, last_edited_at = NOW() WHERE name = $2 and guild_id = $3,
and releases the reservation. -/
def rename_tag (st : CogState) (ctx : Ctx) (tag new_name : String) (now : Nat) :
    TagResponse × CogState :=
  match fetchrowTags st.db tag ctx.guild_id false with
  | none => (.doesNotExist, st)
  | some r =>
      if check_permissions r.owner_id ctx then
        let new_name_tag_record := fetchrowTags st.db tag ctx.guild_id false
        let proceed : TagResponse × CogState :=
          let res1 := add_in_progress_tag st.reserved ctx.guild_id new_name
          let db' := st.db.map (fun t =>
            if t.name == tag && t.guild_id == ctx.guild_id then
              { t with name := new_name, last_edited_at := now }
            else t)
          (.renamed,
           { db := db', reserved := remove_in_progress_tag res1 ctx.guild_id new_name })
        if new_name_tag_record.isSome then
          match is_tag_being_made st.reserved ctx.guild_id new_name with
          | .error e => (.uncaught e, st)
          | .ok true => (.nameTakenMsg, st)
          | .ok false => proceed
        else proceed
      else (.permissionDenied, st)

/-- TagsCog.delete_tag (tags.py lines 480-549). After the existence check
the handler looks for an already soft-deleted row with the same name and
guild; if one exists it runs DELETE FROM Tags WHERE name = $1 AND
guild_id = $2 (removing every row of that name in the guild, deleted or
not) BEFORE the permission check. The permission check then guards only
the soft-delete UPDATE Tags SET deleted = true WHERE name = $1, whose
WHERE clause carries no guild_id filter. -/
def delete_tag (st : CogState) (ctx : Ctx) (tag : String) : TagResponse × CogState :=
  match fetchrowTags st.db tag ctx.guild_id false with
  | none => (.doesNotExist, st)
  | some r =>
      let duplicate_tag_record := fetchrowTags st.db tag ctx.guild_id true
      let db1 :=
        if duplicate_tag_record.isSome then
          st.db.filter (fun t => !(t.name == tag && t.guild_id == ctx.guild_id))
        else st.db
      if check_permissions r.owner_id ctx then
        (.tagDeleted,
         { st with db := db1.map (fun t =>
             if t.name == tag then { t with deleted := true } else t) })
      else (.permissionDenied, { st with db := db1 })

/-- TagsCog.claim_tag (tags.py lines 798-858). The owner_in_guild argument
is the outcome of the membership lookup try_member for the recorded
owner: true when the member is found, false when the lookup raises
NotFound. On NotFound the handler runs UPDATE tags SET owner_id = $1
WHERE name = $2, whose WHERE clause carries no guild_id filter. -/
def claim_tag (db : TagDb) (ctx : Ctx) (tag : String) (owner_in_guild : Bool) :
    TagResponse × TagDb :=
  match fetchrowTags db tag ctx.guild_id false with
  | none => (.doesNotExist, db)
  | some _ =>
      if owner_in_guild then (.ownerStillPresent, db)
      else
        (.claimed,
         db.map (fun t => if t.name == tag then { t with owner_id := ctx.user_id } else t))

/-- TagsCog.restore_tag (tags.py lines 551-673). The reply argument is the
outcome of the 300 second wait in the collision branch: some content if a
message from the invoker arrived, none on timeout. In the collision
branch the handler checks the reply for emptiness, then the reservation
table (which may raise the NameError of is_tag_being_made), then the
store, before reserving the new name, running UPDATE tags SET name = $1,
deleted = FALSE WHERE name = $2 AND guild_id = $3 AND deleted = TRUE,
and releasing the reservation. Without a collision it runs UPDATE tags
SET deleted = FALSE WHERE name = $1 AND guild_id = $2. -/
def restore_tag (st : CogState) (ctx : Ctx) (tag : String) (reply : Option String) :
    TagResponse × CogState :=
  match fetchrowTags st.db tag ctx.guild_id true with
  | none => (.doesNotExist, st)
  | some _ =>
      match fetchrowTags st.db tag ctx.guild_id false with
      | some _ =>
          match reply with
          | none => (.promptThenTimedOut, st)
          | some new_tag_name =>
              if new_tag_name == "" then (.invalidTagName, st)
              else
                match is_tag_being_made st.reserved ctx.guild_id new_tag_name with
                | .error e => (.uncaught e, st)
                | .ok true => (.nameTakenMsg, st)
                | .ok false =>
                    match fetchrowTags st.db new_tag_name ctx.guild_id false with
                    | some _ => (.nameTakenMsg, st)
                    | none =>
                        let res1 :=
                          add_in_progress_tag st.reserved ctx.guild_id new_tag_name
                        let db' := st.db.map (fun t =>
                          if t.name == tag && t.guild_id == ctx.guild_id && t.deleted then
                            { t with name := new_tag_name, deleted := false }
                          else t)
                        (.restoredRenamed,
                         { db := db',
                           reserved :=
                             remove_in_progress_tag res1 ctx.guild_id new_tag_name })
      | none =>
          (.restored,
           { st with db := st.db.map (fun t =>
               if t.name == tag && t.guild_id == ctx.guild_id then
                 { t with deleted := false }
               else t) })

/-- The state of PaginatedView (pagination.py lines 42-102): the list of
embeds (kept abstract), the 0-based index, the disabled flag of each of
the previous and next buttons, and the optional restricting author.
The constructor leaves both buttons enabled; Paginator.start then calls
set_index with the starting index. -/
structure PaginatedView (α : Type) where
  embeds : List α
  index : Int
  previousDisabled : Bool
  nextDisabled : Bool
  author : Option Nat
deriving DecidableEq, Repr

/-- PaginatedView.__init__ (pagination.py lines 43-49): index 0, both
buttons at their default enabled state. -/
def mkPaginatedView (embeds : List α) (author : Option Nat) : PaginatedView α :=
  { embeds := embeds, index := 0, previousDisabled := false, nextDisabled := false,
    author := author }

/-- PaginatedView.set_index (pagination.py lines 96-102): an out-of-range
index is ignored; an in-range index updates the two disabled flags and
the index. -/
def PaginatedView.set_index (v : PaginatedView α) (i : Int) : PaginatedView α :=
  if 0 ≤ i ∧ i < (v.embeds.length : Int) then
    { v with previousDisabled := i == 0,
             nextDisabled := i == (v.embeds.length : Int) - 1,
             index := i }
  else v

/-- Paginator.start (pagination.py lines 25-39) after sending the first
embed: set_index with the paginator's starting index on the fresh view. -/
def startView (embeds : List α) (index : Int) (author : Option Nat) : PaginatedView α :=
  (mkPaginatedView embeds author).set_index index

/-- What a button press or modal submission sends back to the pressing
user. -/
inductive PagResponse where
  | permissionMessage
  | editedMessage
  | modalOpened
  | invalidPage
deriving DecidableEq, Repr

/-- PaginatedView.update (pagination.py lines 81-94): if a restricting
author is set and the interacting user differs, send the permission
embed; otherwise edit the message to the current embed. The view state
itself is not changed. -/
def PaginatedView.update (v : PaginatedView α) (user : Nat) : PagResponse :=
  match v.author with
  | some a => if user == a then .editedMessage else .permissionMessage
  | none => .editedMessage

/-- PaginatedView.previous (pagination.py lines 51-56): set_index to the
current index minus one, then update. -/
def PaginatedView.previous (v : PaginatedView α) (user : Nat) :
    PaginatedView α × PagResponse :=
  let v1 := v.set_index (v.index - 1)
  (v1, v1.update user)

/-- PaginatedView.next (pagination.py lines 74-79): set_index to the
current index plus one, then update. -/
def PaginatedView.next (v : PaginatedView α) (user : Nat) :
    PaginatedView α × PagResponse :=
  let v1 := v.set_index (v.index + 1)
  (v1, v1.update user)

/-- PaginatedView.page (pagination.py lines 58-72): the author check comes
first here; on success the page modal is opened and no state changes. -/
def PaginatedView.page (v : PaginatedView α) (user : Nat) :
    PaginatedView α × PagResponse :=
  match v.author with
  | some a =>
      if user == a then (v, .modalOpened) else (v, .permissionMessage)
  | none => (v, .modalOpened)

/-- Python str.isdigit: true on a nonempty string of digit characters,
modelled over the underlying character list. -/
def pyIsDigit (s : String) : Bool := !s.data.isEmpty && s.data.all Char.isDigit

/-- Python int conversion of a digit string, modelled over the underlying
character list. -/
def pyToNat (s : String) : Nat := s.data.foldl (fun n c => n * 10 + (c.toNat - 48)) 0

/-- PageModal.on_submit (pagination.py lines 112-125): if the submitted
text is all digits (Python isdigit: nonempty and every character a
digit), set_index to that value minus one and update; otherwise send the
invalid-page embed with no state change. -/
def PageModal.on_submit (v : PaginatedView α) (user : Nat) (value : String) :
    PaginatedView α × PagResponse :=
  if pyIsDigit value then
    let v1 := v.set_index ((pyToNat value : Int) - 1)
    (v1, v1.update user)
  else (v, .invalidPage)

/-- The invariant of the paginator state claimed by the spec: the index is
in range and each of the two navigation buttons is disabled exactly at
its end of the page sequence. -/
abbrev PagInv (v : PaginatedView α) : Prop :=
  0 ≤ v.index ∧ v.index < (v.embeds.length : Int) ∧
  v.previousDisabled = (v.index == 0) ∧
  v.nextDisabled = (v.index == (v.embeds.length : Int) - 1)

theorem set_index_author (v : PaginatedView α) (i : Int) :
    (v.set_index i).author = v.author := by
  unfold PaginatedView.set_index
  split <;> rfl

theorem set_index_pagInv (v : PaginatedView α) (i : Int) (hv : PagInv v) :
    PagInv (v.set_index i) := by
  unfold PaginatedView.set_index
  by_cases h : 0 ≤ i ∧ i < (v.embeds.length : Int)
  · rw [if_pos h]
    exact ⟨h.1, h.2, rfl, rfl⟩
  · rw [if_neg h]
    exact hv

theorem set_index_out_of_range (v : PaginatedView α) (i : Int)
    (h : ¬(0 ≤ i ∧ i < (v.embeds.length : Int))) : v.set_index i = v := by
  unfold PaginatedView.set_index
  exact if_neg h

/-- Claim C1: the spec says a create workflow that reserves a name and then
times out releases the reservation, so that is_reserved is false
afterwards and no row is inserted. The code's timeout branch returns
without calling remove_in_progress_tag: after a timed-out create of foo
in guild 1 the workflow does end with the timeout notification and no row
is inserted, but the reservation for foo is still present, and the
reservation lookup raises a NameError rather than returning false. -/
theorem create_timeout_keeps_reservation :
    create_tag { db := [], reserved := [] }
        { guild_id := 1, user_id := 10, manage_guild := false, bot_owner := false }
        "foo" none 5
      = (.promptThenTimedOut, { db := [], reserved := [(1, ["foo"])] })
    ∧ is_tag_being_made [(1, ["foo"])] 1 "foo" = .error .nameError := by
  exact ⟨rfl, rfl⟩

/-- Claim C2: the spec says that after reserve the query is_reserved
returns true (without failing) until release, case-insensitively. In the
code, reserving Foo in guild 1 does record the lowercased name, and
releasing FOO removes it case-insensitively (after which the lookup
returns false), but while the reservation is held is_tag_being_made
raises a NameError instead of returning true, because its logging
statement interpolates an unbound variable. -/
theorem reserve_then_is_reserved_raises :
    is_tag_being_made (add_in_progress_tag [] 1 "Foo") 1 "foo" = .error .nameError
    ∧ add_in_progress_tag [] 1 "Foo" = [(1, ["foo"])]
    ∧ remove_in_progress_tag (add_in_progress_tag [] 1 "Foo") 1 "FOO" = []
    ∧ is_tag_being_made (remove_in_progress_tag (add_in_progress_tag [] 1 "Foo") 1 "FOO")
        1 "foo" = .ok false := by
  exact ⟨rfl, rfl, rfl, rfl⟩

/-- Claim C3: the spec says create aborts with the already-exists response
when the name is reserved in the guild, and proceeds only when the name
is neither stored nor reserved. In the code, once any name is reserved in
the guild, the reservation lookup raises a NameError, so create of the
reserved name foo crashes with an uncaught exception instead of sending
the already-exists response (and a create of any other name in that guild
crashes instead of proceeding). -/
theorem create_with_reserved_name_crashes :
    create_tag { db := [], reserved := add_in_progress_tag [] 1 "foo" }
        { guild_id := 1, user_id := 10, manage_guild := false, bot_owner := false }
        "foo" (some "content") 5
      = (.uncaught .nameError, { db := [], reserved := [(1, ["foo"])] })
    ∧ create_tag { db := [], reserved := add_in_progress_tag [] 1 "foo" }
        { guild_id := 1, user_id := 10, manage_guild := false, bot_owner := false }
        "other" (some "content") 5
      = (.uncaught .nameError, { db := [], reserved := [(1, ["foo"])] }) := by
  exact ⟨rfl, rfl⟩

/-- Claim C4: the spec says a rename whose target new name already exists
as a non-deleted row (or is reserved) aborts with the name-taken response
and performs no update. In the code the collision re-query fetches the
old name instead of the new one and the abort additionally requires the
reservation lookup to succeed, so renaming a to b while a non-deleted b
exists in the same guild goes through and leaves two non-deleted rows
named b. -/
theorem rename_to_taken_name_updates_store :
    fetchrowTags
        [ { name := "a", guild_id := 1, owner_id := 10, content := "x",
            created_at := 0, last_edited_at := 0, uses := 0, deleted := false },
          { name := "b", guild_id := 1, owner_id := 11, content := "y",
            created_at := 0, last_edited_at := 0, uses := 0, deleted := false } ]
        "b" 1 false
      = some { name := "b", guild_id := 1, owner_id := 11, content := "y",
               created_at := 0, last_edited_at := 0, uses := 0, deleted := false }
    ∧ rename_tag
        { db :=
            [ { name := "a", guild_id := 1, owner_id := 10, content := "x",
                created_at := 0, last_edited_at := 0, uses := 0, deleted := false },
              { name := "b", guild_id := 1, owner_id := 11, content := "y",
                created_at := 0, last_edited_at := 0, uses := 0, deleted := false } ],
          reserved := [] }
        { guild_id := 1, user_id := 10, manage_guild := false, bot_owner := false }
        "a" "b" 7
      = (.renamed,
         { db :=
             [ { name := "b", guild_id := 1, owner_id := 10, content := "x",
                 created_at := 0, last_edited_at := 7, uses := 0, deleted := false },
               { name := "b", guild_id := 1, owner_id := 11, content := "y",
                 created_at := 0, last_edited_at := 0, uses := 0, deleted := false } ],
           reserved := [] }) := by
  exact ⟨rfl, rfl⟩

/-- Claim C6: the spec says the mutating tag operations touch only rows of
the invoking guild. The soft-delete UPDATE of delete_tag and the
ownership UPDATE of claim_tag carry no guild_id filter in their WHERE
clause: with a non-deleted tag foo in each of guilds 1 and 2, a delete of
foo in guild 1 soft-deletes the row of guild 2 as well, and a claim of
foo in guild 1 rewrites the owner of the row of guild 2 as well. -/
theorem delete_and_claim_cross_guild_effect :
    delete_tag
        { db :=
            [ { name := "foo", guild_id := 1, owner_id := 10, content := "x",
                created_at := 0, last_edited_at := 0, uses := 0, deleted := false },
              { name := "foo", guild_id := 2, owner_id := 20, content := "y",
                created_at := 0, last_edited_at := 0, uses := 0, deleted := false } ],
          reserved := [] }
        { guild_id := 1, user_id := 10, manage_guild := false, bot_owner := false }
        "foo"
      = (.tagDeleted,
         { db :=
             [ { name := "foo", guild_id := 1, owner_id := 10, content := "x",
                 created_at := 0, last_edited_at := 0, uses := 0, deleted := true },
               { name := "foo", guild_id := 2, owner_id := 20, content := "y",
                 created_at := 0, last_edited_at := 0, uses := 0, deleted := true } ],
           reserved := [] })
    ∧ claim_tag
        [ { name := "foo", guild_id := 1, owner_id := 10, content := "x",
            created_at := 0, last_edited_at := 0, uses := 0, deleted := false },
          { name := "foo", guild_id := 2, owner_id := 20, content := "y",
            created_at := 0, last_edited_at := 0, uses := 0, deleted := false } ]
        { guild_id := 1, user_id := 5, manage_guild := false, bot_owner := false }
        "foo" false
      = (.claimed,
         [ { name := "foo", guild_id := 1, owner_id := 5, content := "x",
             created_at := 0, last_edited_at := 0, uses := 0, deleted := false },
           { name := "foo", guild_id := 2, owner_id := 5, content := "y",
             created_at := 0, last_edited_at := 0, uses := 0, deleted := false } ]) := by
  exact ⟨rfl, rfl⟩

/-- Claim C5, counterexample: with a live tag foo owned by user 10 and a
soft-deleted duplicate row of the same name in guild 1, an invocation by
user 99 without permissions ends with the permission-denied response, yet
the store has been mutated: the hard delete of the duplicate ran before
the permission check and removed every row named foo in the guild. -/
theorem delete_mutates_store_before_permission_check :
    delete_tag
        { db :=
            [ { name := "foo", guild_id := 1, owner_id := 10, content := "x",
                created_at := 0, last_edited_at := 0, uses := 0, deleted := false },
              { name := "foo", guild_id := 1, owner_id := 12, content := "old",
                created_at := 0, last_edited_at := 0, uses := 3, deleted := true } ],
          reserved := [] }
        { guild_id := 1, user_id := 99, manage_guild := false, bot_owner := false }
        "foo"
      = (.permissionDenied, { db := [], reserved := [] })
    ∧ ([ { name := "foo", guild_id := 1, owner_id := 10, content := "x",
           created_at := 0, last_edited_at := 0, uses := 0, deleted := false },
         { name := "foo", guild_id := 1, owner_id := 12, content := "old",
           created_at := 0, last_edited_at := 0, uses := 3, deleted := true } ] : TagDb)
        ≠ [] := by
  exact ⟨rfl, by decide⟩

/-- Claim C5, amended: when the permission check of delete fails the
invocation ends with the permission-denied response, and the store is
unchanged provided no soft-deleted row with the same guild and name
exists; when such a duplicate exists, every row with that name in the
guild has already been hard-deleted before the permission check runs, so
the store is the filtered one even though the check failed. -/
theorem delete_permission_denied_store_effect (st : CogState) (ctx : Ctx) (tag : String)
    (r : Tag)
    (hfind : fetchrowTags st.db tag ctx.guild_id false = some r)
    (hperm : check_permissions r.owner_id ctx = false) :
    delete_tag st ctx tag =
      (.permissionDenied,
       { st with db :=
           if (fetchrowTags st.db tag ctx.guild_id true).isSome then
             st.db.filter (fun t => !(t.name == tag && t.guild_id == ctx.guild_id))
           else st.db }) := by
  unfold delete_tag
  rw [hfind]
  simp only [hperm, Bool.false_eq_true, if_false]

/-- Witness for the amended delete claim at a concrete store: a single
live row owned by user 10, no duplicate, an invoker without permissions;
the invocation is rejected and the store is untouched. -/
theorem delete_permission_denied_store_effect_witness :
    delete_tag
        { db :=
            [ { name := "foo", guild_id := 1, owner_id := 10, content := "x",
                created_at := 0, last_edited_at := 0, uses := 0, deleted := false } ],
          reserved := [] }
        { guild_id := 1, user_id := 99, manage_guild := false, bot_owner := false }
        "foo"
      = (.permissionDenied,
         { db :=
             [ { name := "foo", guild_id := 1, owner_id := 10, content := "x",
                 created_at := 0, last_edited_at := 0, uses := 0, deleted := false } ],
           reserved := [] }) := by
  have h := delete_permission_denied_store_effect
    { db :=
        [ { name := "foo", guild_id := 1, owner_id := 10, content := "x",
            created_at := 0, last_edited_at := 0, uses := 0, deleted := false } ],
      reserved := [] }
    { guild_id := 1, user_id := 99, manage_guild := false, bot_owner := false }
    "foo"
    { name := "foo", guild_id := 1, owner_id := 10, content := "x",
      created_at := 0, last_edited_at := 0, uses := 0, deleted := false }
    rfl rfl
  exact h

/-- Claim C7, counterexample: a paginator over three pages restricted to
author 1, at index 0 after start. A press of the next button by user 2 is
answered with the permission message, but the state is not unchanged: the
index has moved from 0 to 1, because the button handler calls set_index
before update performs its author check. -/
theorem paginator_nonauthor_rejected_state_changed :
    (PaginatedView.next (startView ["a", "b", "c"] 0 (some 1)) 2).2
      = .permissionMessage
    ∧ (startView ["a", "b", "c"] 0 (some 1) : PaginatedView String).index = 0
    ∧ (PaginatedView.next (startView ["a", "b", "c"] 0 (some 1)) 2).1.index = 1 := by
  exact ⟨rfl, rfl, rfl⟩

/-- Claim C7, amended: a navigation attempt by an actor other than the
restricting author is answered with the permission message and the shown
message is not edited, but for the previous, next and page-jump
submissions the view state is still updated exactly as set_index
dictates before the rejection; only the button that opens the page modal
checks the author first and leaves the state unchanged. -/
theorem paginator_nonauthor_navigation_effect {α : Type} (v : PaginatedView α)
    (u a : Nat) (s : String)
    (hauthor : v.author = some a) (hu : u ≠ a) (hs : pyIsDigit s = true) :
    v.next u = (v.set_index (v.index + 1), .permissionMessage)
    ∧ v.previous u = (v.set_index (v.index - 1), .permissionMessage)
    ∧ v.page u = (v, .permissionMessage)
    ∧ PageModal.on_submit v u s
        = (v.set_index ((pyToNat s : Int) - 1), .permissionMessage) := by
  have hupd : ∀ i : Int, (v.set_index i).update u = .permissionMessage := by
    intro i
    unfold PaginatedView.update
    rw [set_index_author, hauthor]
    simp [beq_iff_eq, hu]
  refine ⟨?_, ?_, ?_, ?_⟩
  · exact congrArg (fun r => (v.set_index (v.index + 1), r)) (hupd (v.index + 1))
  · exact congrArg (fun r => (v.set_index (v.index - 1), r)) (hupd (v.index - 1))
  · unfold PaginatedView.page
    rw [hauthor]
    simp [beq_iff_eq, hu]
  · unfold PageModal.on_submit
    rw [if_pos hs]
    exact congrArg (fun r => (v.set_index ((pyToNat s : Int) - 1), r))
      (hupd ((pyToNat s : Int) - 1))

/-- Witness for the amended paginator claim: three pages restricted to
author 1, user 2 navigating, page-jump text 2. -/
theorem paginator_nonauthor_navigation_effect_witness :
    (startView ["a", "b", "c"] 0 (some 1) : PaginatedView String).next 2
      = ((startView ["a", "b", "c"] 0 (some 1) : PaginatedView String).set_index
           ((startView ["a", "b", "c"] 0 (some 1) : PaginatedView String).index + 1),
         .permissionMessage)
    ∧ (startView ["a", "b", "c"] 0 (some 1) : PaginatedView String).previous 2
      = ((startView ["a", "b", "c"] 0 (some 1) : PaginatedView String).set_index
           ((startView ["a", "b", "c"] 0 (some 1) : PaginatedView String).index - 1),
         .permissionMessage)
    ∧ (startView ["a", "b", "c"] 0 (some 1) : PaginatedView String).page 2
      = (startView ["a", "b", "c"] 0 (some 1), .permissionMessage)
    ∧ PageModal.on_submit (startView ["a", "b", "c"] 0 (some 1) : PaginatedView String) 2 "2"
      = ((startView ["a", "b", "c"] 0 (some 1) : PaginatedView String).set_index
           ((pyToNat "2" : Int) - 1),
         .permissionMessage) :=
  paginator_nonauthor_navigation_effect (startView ["a", "b", "c"] 0 (some 1)) 2 1 "2"
    rfl (by decide) rfl

theorem set_index_in_range_pagInv (v : PaginatedView α) (i : Int)
    (h : 0 ≤ i ∧ i < (v.embeds.length : Int)) : PagInv (v.set_index i) := by
  unfold PaginatedView.set_index
  rw [if_pos h]
  exact ⟨h.1, h.2, rfl, rfl⟩

/-- Claim C8: for a paginator over a nonempty page sequence the index is
in range after initialization (construction followed by start) and after
every navigation; pressing next at the last page or previous at the
first page leaves the whole state unchanged, an out-of-range page jump
is ignored, and the previous and next controls are disabled exactly at
the first and last page (the PagInv conjuncts). -/
theorem paginator_index_invariant {α : Type} (embeds : List α) (author : Option Nat)
    (v : PaginatedView α) (u : Nat) (s : String)
    (hne : 0 < embeds.length) (hv : PagInv v) :
    PagInv (startView embeds 0 author)
    ∧ PagInv (v.next u).1
    ∧ PagInv (v.previous u).1
    ∧ PagInv (PageModal.on_submit v u s).1
    ∧ (v.index = (v.embeds.length : Int) - 1 → (v.next u).1 = v)
    ∧ (v.index = 0 → (v.previous u).1 = v)
    ∧ (((pyToNat s : Int) - 1 < 0 ∨ (v.embeds.length : Int) ≤ (pyToNat s : Int) - 1) →
        (PageModal.on_submit v u s).1 = v) := by
  refine ⟨?_, ?_, ?_, ?_, ?_, ?_, ?_⟩
  · exact set_index_in_range_pagInv (mkPaginatedView embeds author) 0
      ⟨le_refl 0, by show (0 : Int) < (embeds.length : Int); exact_mod_cast hne⟩
  · exact set_index_pagInv v (v.index + 1) hv
  · exact set_index_pagInv v (v.index - 1) hv
  · by_cases hdig : pyIsDigit s = true
    · have h1 : (PageModal.on_submit v u s).1 = v.set_index ((pyToNat s : Int) - 1) := by
        unfold PageModal.on_submit
        rw [if_pos hdig]
      rw [h1]
      exact set_index_pagInv v _ hv
    · have h1 : PageModal.on_submit v u s = (v, .invalidPage) := by
        unfold PageModal.on_submit
        rw [if_neg hdig]
      rw [h1]
      exact hv
  · intro hlast
    have hout : ¬(0 ≤ v.index + 1 ∧ v.index + 1 < (v.embeds.length : Int)) := by omega
    exact set_index_out_of_range v (v.index + 1) hout
  · intro hfirst
    have hout : ¬(0 ≤ v.index - 1 ∧ v.index - 1 < (v.embeds.length : Int)) := by omega
    exact set_index_out_of_range v (v.index - 1) hout
  · intro hrange
    by_cases hdig : pyIsDigit s = true
    · have h1 : (PageModal.on_submit v u s).1 = v.set_index ((pyToNat s : Int) - 1) := by
        unfold PageModal.on_submit
        rw [if_pos hdig]
      rw [h1]
      exact set_index_out_of_range v _ (by omega)
    · have h1 : PageModal.on_submit v u s = (v, .invalidPage) := by
        unfold PageModal.on_submit
        rw [if_neg hdig]
      rw [h1]

/-- Witness for the paginator invariant at a concrete three-page view
restricted to author 1: the started view satisfies the invariant and a
previous press at the first page is a no-op. -/
theorem paginator_index_invariant_witness :
    PagInv (startView (["a", "b", "c"] : List String) 0 (some 1))
    ∧ ((startView (["a", "b", "c"] : List String) 0 (some 1)).previous 1).1
        = startView (["a", "b", "c"] : List String) 0 (some 1) :=
  ⟨(paginator_index_invariant ["a", "b", "c"] (some 1)
      (startView ["a", "b", "c"] 0 (some 1)) 1 "9" (by decide) (by decide)).1,
   (paginator_index_invariant ["a", "b", "c"] (some 1)
      (startView ["a", "b", "c"] 0 (some 1)) 1 "9" (by decide) (by decide)).2.2.2.2.2.1
     (by decide)⟩

/-- Claim C9: in any guild, creating tag foo with reply content bar in an
empty store succeeds and inserts the row with zero uses, and a subsequent
view of foo returns the content bar and bumps uses from 0 to 1 by the
follow-up write after the read. -/
theorem create_then_view_roundtrip (g uid now : Nat) (mg ow : Bool) :
    create_tag { db := [], reserved := [] }
        { guild_id := g, user_id := uid, manage_guild := mg, bot_owner := ow }
        "foo" (some "bar") now
      = (.created,
         { db := [ { name := "foo", guild_id := g, owner_id := uid, content := "bar",
                     created_at := now, last_edited_at := now, uses := 0,
                     deleted := false } ],
           reserved := [] })
    ∧ view_tag
        [ { name := "foo", guild_id := g, owner_id := uid, content := "bar",
            created_at := now, last_edited_at := now, uses := 0, deleted := false } ]
        { guild_id := g, user_id := uid, manage_guild := mg, bot_owner := ow }
        "foo"
      = (.viewed "bar",
         [ { name := "foo", guild_id := g, owner_id := uid, content := "bar",
             created_at := now, last_edited_at := now, uses := 1, deleted := false } ]) := by
  constructor
  · simp [create_tag, fetchrowTags, is_tag_being_made, add_in_progress_tag,
      remove_in_progress_tag, lookupGuild, pyLower]
  · simp [view_tag, fetchrowTags, List.find?]

/-- Claim C10: in the restore flow, when a deleted row exists and a live
row with the same name forces the rename path, an empty reply message is
answered with the invalid-tag-name message and the handler returns with
the store and the reservation table untouched. -/
theorem restore_rename_empty_reply_no_write (st : CogState) (ctx : Ctx) (tag : String)
    (d r : Tag)
    (hdel : fetchrowTags st.db tag ctx.guild_id true = some d)
    (hdup : fetchrowTags st.db tag ctx.guild_id false = some r) :
    restore_tag st ctx tag (some "") = (.invalidTagName, st) := by
  unfold restore_tag
  rw [hdel, hdup]
  rfl

/-- Witness for the empty-reply restore claim at a concrete store holding
a live and a soft-deleted row named foo in guild 1. -/
theorem restore_rename_empty_reply_no_write_witness :
    restore_tag
        { db :=
            [ { name := "foo", guild_id := 1, owner_id := 10, content := "x",
                created_at := 0, last_edited_at := 0, uses := 0, deleted := false },
              { name := "foo", guild_id := 1, owner_id := 12, content := "old",
                created_at := 0, last_edited_at := 0, uses := 3, deleted := true } ],
          reserved := [] }
        { guild_id := 1, user_id := 7, manage_guild := true, bot_owner := false }
        "foo" (some "")
      = (.invalidTagName,
         { db :=
             [ { name := "foo", guild_id := 1, owner_id := 10, content := "x",
                 created_at := 0, last_edited_at := 0, uses := 0, deleted := false },
               { name := "foo", guild_id := 1, owner_id := 12, content := "old",
                 created_at := 0, last_edited_at := 0, uses := 3, deleted := true } ],
           reserved := [] }) :=
  restore_rename_empty_reply_no_write
    { db :=
        [ { name := "foo", guild_id := 1, owner_id := 10, content := "x",
            created_at := 0, last_edited_at := 0, uses := 0, deleted := false },
          { name := "foo", guild_id := 1, owner_id := 12, content := "old",
            created_at := 0, last_edited_at := 0, uses := 3, deleted := true } ],
      reserved := [] }
    { guild_id := 1, user_id := 7, manage_guild := true, bot_owner := false }
    "foo"
    { name := "foo", guild_id := 1, owner_id := 12, content := "old",
      created_at := 0, last_edited_at := 0, uses := 3, deleted := true }
    { name := "foo", guild_id := 1, owner_id := 10, content := "x",
      created_at := 0, last_edited_at := 0, uses := 0, deleted := false }
    rfl rfl
